import Mathlib

/-!
Shallow embedding of `hitraa/express-response-rest` (src/src/HttpResponse.ts and
src/src/middleware.ts).

Modelling conventions:
* A JavaScript value that may appear in an envelope is `JSVal`.
* An optional field of an options bag is `Option (Option α)`:
  `none` = the key is absent from the object,
  `some none` = the key is present with value `undefined`,
  `some (some a)` = the key is present with the defined value `a`.
  This distinction is observable in the source: object spread (`...options`)
  copies a present-but-undefined key over a preset, while a destructuring
  default (`message = ...`) fires for both absent and undefined.
* Effects on the Express `Response` sink are reified as a list of
  `SinkOp = Nat × Effect` values: the `Nat` identifies the per-request sink
  (the `res` object an `HttpResponse` instance is bound to) and the `Effect`
  is one primitive sink operation, in program order.
* The send-time clock (`new Date().toISOString()`) is threaded as an explicit
  `now : String` parameter.
* The TypeScript default parameter `options = {}` is modelled by callers
  passing the empty `ResponseOptions` record.
-/

/-- A JSON-serializable JavaScript value, as can appear in `data`/`errors`/`meta`
or in the emitted envelope. -/
inductive JSVal where
  | jsNull : JSVal
  | bool (b : Bool) : JSVal
  | num (n : Int) : JSVal
  | str (s : String) : JSVal
  | arr (xs : List JSVal) : JSVal
  | obj (fields : List (String × JSVal)) : JSVal

/-- One primitive operation on the Express response sink:
`setHeader k v` models `res.setHeader(key, value)`;
`jsonWrite c b` models `res.status(c).json(b)` (the JSON body is the ordered
field list of the envelope object);
`sendEmpty c` models `res.status(c).send()` with no body. -/
inductive Effect where
  | setHeader (k v : String) : Effect
  | jsonWrite (code : Int) (body : List (String × JSVal)) : Effect
  | sendEmpty (code : Int) : Effect

/-- A sink operation tagged with the identity of the response sink it targets. -/
abbrev SinkOp := Nat × Effect

/-- JavaScript destructuring default: `const { x = d } = o` yields `d` exactly
when the key is absent or present with value `undefined`. -/
def jsDefault {α : Type} : Option (Option α) → α → α
  | some (some a), _ => a
  | _, d => d

/-- The `x !== undefined` test: the defined value of a field, if any
(absent and present-undefined both count as not defined). -/
def jsDefined {α : Type} : Option (Option α) → Option α
  | some (some a) => some a
  | _ => none

/-- `export type ResponseStatus = 'success' | 'error'` (HttpResponse.ts line 36). -/
inductive ResponseStatus where
  | success : ResponseStatus
  | error : ResponseStatus

/-- The string a `ResponseStatus` denotes ('success' or 'error'). -/
def ResponseStatus.asString : ResponseStatus → String
  | .success => "success"
  | .error => "error"

/-- `interface ResponseOptions` (HttpResponse.ts lines 6-13): all six optional
keys `message`, `data`, `meta`, `errors`, `headers`, `statusCode`. -/
structure ResponseOptions where
  message : Option (Option String)
  data : Option (Option JSVal)
  meta : Option (Option JSVal)
  errors : Option (Option JSVal)
  headers : Option (Option (List (String × String)))
  statusCode : Option (Option Int)

/-- The empty options object `{}`. -/
def ResponseOptions.empty : ResponseOptions :=
  ⟨none, none, none, none, none, none⟩

/-- `interface SuccessResponseOptions extends ResponseOptions` (lines 18-24).
TypeScript interface extension inherits every member of `ResponseOptions`, and
the re-declared members have the same types, so the interface is structurally
the same type. -/
abbrev SuccessResponseOptions := ResponseOptions

/-- `interface ErrorResponseOptions extends ResponseOptions` (lines 29-34).
It re-declares only `message`/`errors`/`headers`/`statusCode`, but interface
extension still inherits `data?: any` and `meta?: any` from `ResponseOptions`,
so the type it denotes is again structurally `ResponseOptions`. -/
abbrev ErrorResponseOptions := ResponseOptions

/-- JavaScript object spread `{ ...base, ...o }` restricted to the options
shape: every key of the result is taken from `o` when `o` has that key
(even with value `undefined`), otherwise from `base`.  The helper presets in
the source are all of the form `{ statusCode: c, message: m, ...options }`,
i.e. `jsSpread base options` with `base` holding only the preset keys. -/
def jsSpread (base o : ResponseOptions) : ResponseOptions where
  message := match o.message with
    | some x => some x
    | none => base.message
  data := match o.data with
    | some x => some x
    | none => base.data
  meta := match o.meta with
    | some x => some x
    | none => base.meta
  errors := match o.errors with
    | some x => some x
    | none => base.errors
  headers := match o.headers with
    | some x => some x
    | none => base.headers
  statusCode := match o.statusCode with
    | some x => some x
    | none => base.statusCode

/-- `class HttpResponse { res: Response; constructor(res) { this.res = res } }`:
an instance is its bound response sink, identified by the sink's identity. -/
structure HttpResponse where
  res : Nat

/-- `HttpResponse.send(status, options)` (HttpResponse.ts lines 55-86):
destructure `message`/`statusCode` with category defaults, apply each supplied
header pair via `setHeader`, build the envelope object in insertion order
(`status`, `message`, then `data`/`errors`/`meta` each only if `!== undefined`,
then `timestamp`), and finish with `res.status(statusCode).json(envelope)`.
`now` is the ISO string `new Date().toISOString()` evaluates to. -/
def HttpResponse.send (self : HttpResponse) (now : String)
    (status : ResponseStatus) (options : ResponseOptions) : List SinkOp :=
  let message := jsDefault options.message
    (match status with | .success => "Success" | .error => "Error")
  let statusCode := jsDefault options.statusCode
    (match status with | .success => (200 : Int) | .error => 500)
  let headerOps : List SinkOp := match jsDefined options.headers with
    | some hs => hs.map (fun kv => (self.res, Effect.setHeader kv.1 kv.2))
    | none => []
  let body : List (String × JSVal) :=
    [("status", JSVal.str status.asString), ("message", JSVal.str message)]
      ++ (match jsDefined options.data with
          | some v => [("data", v)]
          | none => [])
      ++ (match jsDefined options.errors with
          | some v => [("errors", v)]
          | none => [])
      ++ (match jsDefined options.meta with
          | some v => [("meta", v)]
          | none => [])
      ++ [("timestamp", JSVal.str now)]
  headerOps ++ [(self.res, Effect.jsonWrite statusCode body)]

/-- `success(options) { this.send('success', { statusCode: 200, ...options }) }`. -/
def HttpResponse.success (self : HttpResponse) (now : String)
    (options : SuccessResponseOptions) : List SinkOp :=
  self.send now ResponseStatus.success
    (jsSpread { ResponseOptions.empty with statusCode := some (some 200) } options)

/-- `created(options) { this.success({ statusCode: 201, message: 'Resource created', ...options }) }`. -/
def HttpResponse.created (self : HttpResponse) (now : String)
    (options : SuccessResponseOptions) : List SinkOp :=
  self.success now
    (jsSpread { ResponseOptions.empty with
        statusCode := some (some 201), message := some (some "Resource created") } options)

/-- `accepted(options) { this.success({ statusCode: 202, message: 'Accepted', ...options }) }`. -/
def HttpResponse.accepted (self : HttpResponse) (now : String)
    (options : SuccessResponseOptions) : List SinkOp :=
  self.success now
    (jsSpread { ResponseOptions.empty with
        statusCode := some (some 202), message := some (some "Accepted") } options)

/-- `noContent() { this.res.status(204).send() }` (lines 125-127): a single
empty-body write, not going through `send`. -/
def HttpResponse.noContent (self : HttpResponse) : List SinkOp :=
  [(self.res, Effect.sendEmpty 204)]

/-- `error(options) { this.send('error', { statusCode: 500, ...options }) }`. -/
def HttpResponse.error (self : HttpResponse) (now : String)
    (options : ErrorResponseOptions) : List SinkOp :=
  self.send now ResponseStatus.error
    (jsSpread { ResponseOptions.empty with statusCode := some (some 500) } options)

/-- `badRequest(options) { this.error({ statusCode: 400, message: 'Bad Request', ...options }) }`. -/
def HttpResponse.badRequest (self : HttpResponse) (now : String)
    (options : ErrorResponseOptions) : List SinkOp :=
  self.error now
    (jsSpread { ResponseOptions.empty with
        statusCode := some (some 400), message := some (some "Bad Request") } options)

/-- `unauthorized(options) { this.error({ statusCode: 401, message: 'Unauthorized', ...options }) }`. -/
def HttpResponse.unauthorized (self : HttpResponse) (now : String)
    (options : ErrorResponseOptions) : List SinkOp :=
  self.error now
    (jsSpread { ResponseOptions.empty with
        statusCode := some (some 401), message := some (some "Unauthorized") } options)

/-- `forbidden(options) { this.error({ statusCode: 403, message: 'Forbidden', ...options }) }`. -/
def HttpResponse.forbidden (self : HttpResponse) (now : String)
    (options : ErrorResponseOptions) : List SinkOp :=
  self.error now
    (jsSpread { ResponseOptions.empty with
        statusCode := some (some 403), message := some (some "Forbidden") } options)

/-- `notFound(options) { this.error({ statusCode: 404, message: 'Not Found', ...options }) }`. -/
def HttpResponse.notFound (self : HttpResponse) (now : String)
    (options : ErrorResponseOptions) : List SinkOp :=
  self.error now
    (jsSpread { ResponseOptions.empty with
        statusCode := some (some 404), message := some (some "Not Found") } options)

/-- `notAcceptable(options) { this.error({ statusCode: 406, message: 'Not Acceptable', ...options }) }`. -/
def HttpResponse.notAcceptable (self : HttpResponse) (now : String)
    (options : ErrorResponseOptions) : List SinkOp :=
  self.error now
    (jsSpread { ResponseOptions.empty with
        statusCode := some (some 406), message := some (some "Not Acceptable") } options)

/-- `conflict(options) { this.error({ statusCode: 409, message: 'Conflict', ...options }) }`. -/
def HttpResponse.conflict (self : HttpResponse) (now : String)
    (options : ErrorResponseOptions) : List SinkOp :=
  self.error now
    (jsSpread { ResponseOptions.empty with
        statusCode := some (some 409), message := some (some "Conflict") } options)

/-- `gone(options) { this.error({ statusCode: 410, message: 'Gone', ...options }) }`. -/
def HttpResponse.gone (self : HttpResponse) (now : String)
    (options : ErrorResponseOptions) : List SinkOp :=
  self.error now
    (jsSpread { ResponseOptions.empty with
        statusCode := some (some 410), message := some (some "Gone") } options)

/-- `unsupportedMediaType(options) { this.error({ statusCode: 415, message: 'Unsupported Media Type', ...options }) }`. -/
def HttpResponse.unsupportedMediaType (self : HttpResponse) (now : String)
    (options : ErrorResponseOptions) : List SinkOp :=
  self.error now
    (jsSpread { ResponseOptions.empty with
        statusCode := some (some 415), message := some (some "Unsupported Media Type") } options)

/-- `unprocessableEntity(options) { this.error({ statusCode: 422, message: 'Unprocessable Entity', ...options }) }`. -/
def HttpResponse.unprocessableEntity (self : HttpResponse) (now : String)
    (options : ErrorResponseOptions) : List SinkOp :=
  self.error now
    (jsSpread { ResponseOptions.empty with
        statusCode := some (some 422), message := some (some "Unprocessable Entity") } options)

/-- `tooManyRequests(options) { this.error({ statusCode: 429, message: 'Too Many Requests', ...options }) }`. -/
def HttpResponse.tooManyRequests (self : HttpResponse) (now : String)
    (options : ErrorResponseOptions) : List SinkOp :=
  self.error now
    (jsSpread { ResponseOptions.empty with
        statusCode := some (some 429), message := some (some "Too Many Requests") } options)

/-- `serverError(options) { this.error({ message: 'Internal Server Error', ...options }) }`:
note it presets only the message, not a status code. -/
def HttpResponse.serverError (self : HttpResponse) (now : String)
    (options : ErrorResponseOptions) : List SinkOp :=
  self.error now
    (jsSpread { ResponseOptions.empty with
        message := some (some "Internal Server Error") } options)

/-- `notImplemented(options) { this.error({ statusCode: 501, message: 'Not Implemented', ...options }) }`. -/
def HttpResponse.notImplemented (self : HttpResponse) (now : String)
    (options : ErrorResponseOptions) : List SinkOp :=
  self.error now
    (jsSpread { ResponseOptions.empty with
        statusCode := some (some 501), message := some (some "Not Implemented") } options)

/-- `serviceUnavailable(options) { this.error({ statusCode: 503, message: 'Service Unavailable', ...options }) }`. -/
def HttpResponse.serviceUnavailable (self : HttpResponse) (now : String)
    (options : ErrorResponseOptions) : List SinkOp :=
  self.error now
    (jsSpread { ResponseOptions.empty with
        statusCode := some (some 503), message := some (some "Service Unavailable") } options)

/-- The per-request response sink: its identity plus the sink operations already
performed on it (its writable state, apart from the helper bindings). -/
structure Sink where
  id : Nat
  performed : List SinkOp

/-- The Express `Response` object as the middleware sees it: the underlying
sink plus the (initially absent) helper bindings, looked up by name.  A bound
helper takes the options bag and the send-time clock instant and yields the
sink operations it performs. -/
structure ResObj where
  sink : Sink
  handlers : String → Option (ResponseOptions → String → List SinkOp)

/-- The inbound Express `Request` (opaque to this library: the middleware only
receives and ignores it). -/
structure Request where
  reqId : Nat

/-- One step the middleware performs, in program order:
`newFormatter i` models `new HttpResponse(res)` for the sink identified by `i`;
`bind n` models the assignment `res.n = (options?) => httpResponse.n(options)`;
`callNext args` models invoking the continuation `next(...args)`;
`sinkWrite op` would model a direct write to the sink (the middleware performs
none, so this constructor never occurs in its trace). -/
inductive MwEvent where
  | newFormatter (resId : Nat) : MwEvent
  | bind (name : String) : MwEvent
  | callNext (args : List JSVal) : MwEvent
  | sinkWrite (op : SinkOp) : MwEvent

/-- The outcome of one middleware invocation: the updated response object, the
`HttpResponse` instance it constructed, and the trace of steps it took. -/
structure MwResult where
  newRes : ResObj
  httpResponse : HttpResponse
  events : List MwEvent

/-- The canonical names of the 18 helpers, in the order middleware.ts
lines 43-60 binds them. -/
def helperNames : List String :=
  ["success", "created", "accepted", "noContent", "badRequest", "unauthorized",
   "forbidden", "notFound", "notAcceptable", "conflict", "gone",
   "unsupportedMediaType", "unprocessableEntity", "tooManyRequests", "error",
   "serverError", "notImplemented", "serviceUnavailable"]

/-- `responseMiddleware(req, res, next)` (middleware.ts lines 36-63): construct
`const httpResponse = new HttpResponse(res)`, assign the 18 arrow-function
bindings onto `res` (each closing over `httpResponse`; `noContent`'s arrow
takes no parameters, so it ignores whatever is passed), then call `next()`.
The continuation call and the construction are recorded in the event trace. -/
def responseMiddleware (req : Request) (res : ResObj) : MwResult :=
  let httpResponse : HttpResponse := ⟨res.sink.id⟩
  let handlers' : String → Option (ResponseOptions → String → List SinkOp) := fun n =>
    if n = "success" then some (fun o now => httpResponse.success now o)
    else if n = "created" then some (fun o now => httpResponse.created now o)
    else if n = "accepted" then some (fun o now => httpResponse.accepted now o)
    else if n = "noContent" then some (fun _o _now => httpResponse.noContent)
    else if n = "badRequest" then some (fun o now => httpResponse.badRequest now o)
    else if n = "unauthorized" then some (fun o now => httpResponse.unauthorized now o)
    else if n = "forbidden" then some (fun o now => httpResponse.forbidden now o)
    else if n = "notFound" then some (fun o now => httpResponse.notFound now o)
    else if n = "notAcceptable" then some (fun o now => httpResponse.notAcceptable now o)
    else if n = "conflict" then some (fun o now => httpResponse.conflict now o)
    else if n = "gone" then some (fun o now => httpResponse.gone now o)
    else if n = "unsupportedMediaType" then some (fun o now => httpResponse.unsupportedMediaType now o)
    else if n = "unprocessableEntity" then some (fun o now => httpResponse.unprocessableEntity now o)
    else if n = "tooManyRequests" then some (fun o now => httpResponse.tooManyRequests now o)
    else if n = "error" then some (fun o now => httpResponse.error now o)
    else if n = "serverError" then some (fun o now => httpResponse.serverError now o)
    else if n = "notImplemented" then some (fun o now => httpResponse.notImplemented now o)
    else if n = "serviceUnavailable" then some (fun o now => httpResponse.serviceUnavailable now o)
    else res.handlers n
  { newRes := { res with handlers := handlers' }
    httpResponse := httpResponse
    events := MwEvent.newFormatter res.sink.id :: (helperNames.map MwEvent.bind
      ++ [MwEvent.callNext []]) }

/-- The status code of the terminal `res.status(c).json(...)` write of an
operation sequence, if its last operation is such a write. -/
def emittedCode (ops : List SinkOp) : Option Int :=
  match ops.getLast? with
  | some (_, Effect.jsonWrite c _) => some c
  | _ => none

/-- The envelope body of the terminal JSON write of an operation sequence. -/
def emittedBody (ops : List SinkOp) : Option (List (String × JSVal)) :=
  match ops.getLast? with
  | some (_, Effect.jsonWrite _ b) => some b
  | _ => none

/-- First-match lookup of a key in an envelope's ordered field list. -/
def lookupField (k : String) : List (String × JSVal) → Option JSVal
  | [] => none
  | (k', v) :: rest => if k = k' then some v else lookupField k rest

/-- The value of field `k` in the envelope emitted by an operation sequence. -/
def emittedField (k : String) (ops : List SinkOp) : Option JSVal :=
  (emittedBody ops).bind (fun b => lookupField k b)

/-- The ordered key set of the emitted envelope. -/
def emittedKeys (ops : List SinkOp) : Option (List String) :=
  (emittedBody ops).map (fun b => b.map Prod.fst)

/-- Enumeration of the 17 named helpers that go through the Formatter
(`noContent` is apart, it bypasses `send`). -/
inductive Helper where
  | success | created | accepted
  | badRequest | unauthorized | forbidden | notFound | notAcceptable
  | conflict | gone | unsupportedMediaType | unprocessableEntity
  | tooManyRequests | error | serverError | notImplemented | serviceUnavailable

/-- Dispatch a `Helper` name to the corresponding `HttpResponse` method. -/
def Helper.call : Helper → HttpResponse → String → ResponseOptions → List SinkOp
  | .success => fun self now o => self.success now o
  | .created => fun self now o => self.created now o
  | .accepted => fun self now o => self.accepted now o
  | .badRequest => fun self now o => self.badRequest now o
  | .unauthorized => fun self now o => self.unauthorized now o
  | .forbidden => fun self now o => self.forbidden now o
  | .notFound => fun self now o => self.notFound now o
  | .notAcceptable => fun self now o => self.notAcceptable now o
  | .conflict => fun self now o => self.conflict now o
  | .gone => fun self now o => self.gone now o
  | .unsupportedMediaType => fun self now o => self.unsupportedMediaType now o
  | .unprocessableEntity => fun self now o => self.unprocessableEntity now o
  | .tooManyRequests => fun self now o => self.tooManyRequests now o
  | .error => fun self now o => self.error now o
  | .serverError => fun self now o => self.serverError now o
  | .notImplemented => fun self now o => self.notImplemented now o
  | .serviceUnavailable => fun self now o => self.serviceUnavailable now o

/-- The documented category of each helper, from the spec's preset table. -/
def Helper.docCategory : Helper → ResponseStatus
  | .success | .created | .accepted => ResponseStatus.success
  | _ => ResponseStatus.error

/-- The documented default status code of each helper, from the spec's preset
table. -/
def Helper.docStatus : Helper → Int
  | .success => 200
  | .created => 201
  | .accepted => 202
  | .badRequest => 400
  | .unauthorized => 401
  | .forbidden => 403
  | .notFound => 404
  | .notAcceptable => 406
  | .conflict => 409
  | .gone => 410
  | .unsupportedMediaType => 415
  | .unprocessableEntity => 422
  | .tooManyRequests => 429
  | .error => 500
  | .serverError => 500
  | .notImplemented => 501
  | .serviceUnavailable => 503

/-- The documented default message of each helper, from the spec's preset
table. -/
def Helper.docMessage : Helper → String
  | .success => "Success"
  | .created => "Resource created"
  | .accepted => "Accepted"
  | .badRequest => "Bad Request"
  | .unauthorized => "Unauthorized"
  | .forbidden => "Forbidden"
  | .notFound => "Not Found"
  | .notAcceptable => "Not Acceptable"
  | .conflict => "Conflict"
  | .gone => "Gone"
  | .unsupportedMediaType => "Unsupported Media Type"
  | .unprocessableEntity => "Unprocessable Entity"
  | .tooManyRequests => "Too Many Requests"
  | .error => "Error"
  | .serverError => "Internal Server Error"
  | .notImplemented => "Not Implemented"
  | .serviceUnavailable => "Service Unavailable"

theorem lastOfConcat {α : Type} (l : List α) (a : α) : (l ++ [a]).getLast? = some a := by
  induction l with
  | nil => rfl
  | cons x xs ih =>
    rw [List.cons_append, List.getLast?_cons, ih]
    rfl

theorem send_emittedCode (self : HttpResponse) (now : String) (st : ResponseStatus)
    (o : ResponseOptions) :
    emittedCode (self.send now st o) =
      some (jsDefault o.statusCode (match st with | .success => 200 | .error => 500)) := by
  simp [HttpResponse.send, emittedCode, lastOfConcat]

theorem send_emittedField_status (self : HttpResponse) (now : String) (st : ResponseStatus)
    (o : ResponseOptions) :
    emittedField "status" (self.send now st o) = some (JSVal.str st.asString) := by
  simp [HttpResponse.send, emittedField, emittedBody, lookupField, lastOfConcat]

theorem send_emittedField_message (self : HttpResponse) (now : String) (st : ResponseStatus)
    (o : ResponseOptions) :
    emittedField "message" (self.send now st o) =
      some (JSVal.str (jsDefault o.message
        (match st with | .success => "Success" | .error => "Error"))) := by
  simp [HttpResponse.send, emittedField, emittedBody, lookupField, lastOfConcat]

theorem send_emittedField_data (self : HttpResponse) (now : String) (st : ResponseStatus)
    (o : ResponseOptions) :
    emittedField "data" (self.send now st o) = jsDefined o.data := by
  cases hd : jsDefined o.data <;> cases he : jsDefined o.errors <;> cases hm : jsDefined o.meta <;>
    simp [HttpResponse.send, emittedField, emittedBody, lookupField, lastOfConcat, hd, he, hm]

theorem send_emittedField_errors (self : HttpResponse) (now : String) (st : ResponseStatus)
    (o : ResponseOptions) :
    emittedField "errors" (self.send now st o) = jsDefined o.errors := by
  cases hd : jsDefined o.data <;> cases he : jsDefined o.errors <;> cases hm : jsDefined o.meta <;>
    simp [HttpResponse.send, emittedField, emittedBody, lookupField, lastOfConcat, hd, he, hm]

theorem send_emittedField_meta (self : HttpResponse) (now : String) (st : ResponseStatus)
    (o : ResponseOptions) :
    emittedField "meta" (self.send now st o) = jsDefined o.meta := by
  cases hd : jsDefined o.data <;> cases he : jsDefined o.errors <;> cases hm : jsDefined o.meta <;>
    simp [HttpResponse.send, emittedField, emittedBody, lookupField, lastOfConcat, hd, he, hm]

theorem send_emittedKeys (self : HttpResponse) (now : String) (st : ResponseStatus)
    (o : ResponseOptions) :
    emittedKeys (self.send now st o) =
      some (["status", "message"]
        ++ (match jsDefined o.data with | some _ => ["data"] | none => [])
        ++ (match jsDefined o.errors with | some _ => ["errors"] | none => [])
        ++ (match jsDefined o.meta with | some _ => ["meta"] | none => [])
        ++ ["timestamp"]) := by
  cases hd : jsDefined o.data <;> cases he : jsDefined o.errors <;> cases hm : jsDefined o.meta <;>
    simp [HttpResponse.send, emittedKeys, emittedBody, lastOfConcat, hd, he, hm]

/-- Claim C1: every named helper of the preset table, called with no options,
emits an envelope whose `message` is that helper's documented default message
and whose `status` is its documented category, and writes it with the helper's
documented default status code (a single JSON write, preceded by no header
operations). -/
theorem helper_defaults_match_doc_table (h : Helper) (self : HttpResponse) (now : String) :
    Helper.call h self now ResponseOptions.empty =
      [(self.res, Effect.jsonWrite h.docStatus
        [("status", JSVal.str h.docCategory.asString),
         ("message", JSVal.str h.docMessage),
         ("timestamp", JSVal.str now)])] := by
  cases h <;> rfl

/-- Claim C2: for every helper, a caller-supplied `message` and/or `statusCode`
overrides the preset defaults in the emitted envelope and status-code write,
and no options content can change the envelope's `status` field, which always
equals the helper's fixed category. -/
theorem helper_options_override_presets (h : Helper) (self : HttpResponse) (now : String)
    (o : ResponseOptions) (m : String) (c : Int) :
    (o.message = some (some m) →
      emittedField "message" (h.call self now o) = some (JSVal.str m)) ∧
    (o.statusCode = some (some c) →
      emittedCode (h.call self now o) = some c) ∧
    emittedField "status" (h.call self now o) = some (JSVal.str h.docCategory.asString) := by
  refine ⟨fun hm => ?_, fun hc => ?_, ?_⟩ <;> cases h <;>
    simp [Helper.call, HttpResponse.success, HttpResponse.created, HttpResponse.accepted,
      HttpResponse.badRequest, HttpResponse.unauthorized, HttpResponse.forbidden,
      HttpResponse.notFound, HttpResponse.notAcceptable, HttpResponse.conflict,
      HttpResponse.gone, HttpResponse.unsupportedMediaType, HttpResponse.unprocessableEntity,
      HttpResponse.tooManyRequests, HttpResponse.error, HttpResponse.serverError,
      HttpResponse.notImplemented, HttpResponse.serviceUnavailable,
      send_emittedField_message, send_emittedCode, send_emittedField_status,
      jsSpread, jsDefault, Helper.docCategory, ResponseStatus.asString, *]

theorem helper_options_override_presets_witness :
    emittedField "message" (Helper.call Helper.notFound ⟨0⟩ "T"
        ⟨some (some "custom"), none, none, none, none, some (some 418)⟩) =
      some (JSVal.str "custom") ∧
    emittedCode (Helper.call Helper.notFound ⟨0⟩ "T"
        ⟨some (some "custom"), none, none, none, none, some (some 418)⟩) = some 418 ∧
    emittedField "status" (Helper.call Helper.notFound ⟨0⟩ "T"
        ⟨some (some "custom"), none, none, none, none, some (some 418)⟩) =
      some (JSVal.str "error") := by
  have h := helper_options_override_presets Helper.notFound ⟨0⟩ "T"
    ⟨some (some "custom"), none, none, none, none, some (some 418)⟩ "custom" 418
  exact ⟨h.1 rfl, h.2.1 rfl, h.2.2⟩

theorem jsSpread_data (b o : ResponseOptions) (hb : b.data = none) :
    (jsSpread b o).data = o.data := by
  simp only [jsSpread]
  cases o.data <;> simp [hb]

theorem jsSpread_errors (b o : ResponseOptions) (hb : b.errors = none) :
    (jsSpread b o).errors = o.errors := by
  simp only [jsSpread]
  cases o.errors <;> simp [hb]

theorem jsSpread_meta (b o : ResponseOptions) (hb : b.meta = none) :
    (jsSpread b o).meta = o.meta := by
  simp only [jsSpread]
  cases o.meta <;> simp [hb]

theorem jsSpread_headers (b o : ResponseOptions) (hb : b.headers = none) :
    (jsSpread b o).headers = o.headers := by
  simp only [jsSpread]
  cases o.headers <;> simp [hb]

/-- Claim C3: for every call to `send`, directly or through a helper, each of
`data`, `errors`, `meta` appears in the envelope exactly when the caller
supplied a defined value, with exactly that value (including falsy ones), and
the envelope's ordered key set is `status`, `message`, the supplied subset of
`data`/`errors`/`meta`, then `timestamp` — an unsupplied field is absent
entirely. -/
theorem envelope_payload_fields_caller_driven (self : HttpResponse) (now : String)
    (st : ResponseStatus) (o : ResponseOptions) (h : Helper) :
    (emittedField "data" (self.send now st o) = jsDefined o.data ∧
     emittedField "errors" (self.send now st o) = jsDefined o.errors ∧
     emittedField "meta" (self.send now st o) = jsDefined o.meta ∧
     emittedKeys (self.send now st o) = some (["status", "message"]
        ++ (match jsDefined o.data with | some _ => ["data"] | none => [])
        ++ (match jsDefined o.errors with | some _ => ["errors"] | none => [])
        ++ (match jsDefined o.meta with | some _ => ["meta"] | none => [])
        ++ ["timestamp"])) ∧
    (emittedField "data" (h.call self now o) = jsDefined o.data ∧
     emittedField "errors" (h.call self now o) = jsDefined o.errors ∧
     emittedField "meta" (h.call self now o) = jsDefined o.meta ∧
     emittedKeys (h.call self now o) = some (["status", "message"]
        ++ (match jsDefined o.data with | some _ => ["data"] | none => [])
        ++ (match jsDefined o.errors with | some _ => ["errors"] | none => [])
        ++ (match jsDefined o.meta with | some _ => ["meta"] | none => [])
        ++ ["timestamp"])) := by
  refine ⟨⟨send_emittedField_data self now st o, send_emittedField_errors self now st o,
    send_emittedField_meta self now st o, send_emittedKeys self now st o⟩,
    ?_, ?_, ?_, ?_⟩ <;> cases h <;>
    simp [Helper.call, HttpResponse.success, HttpResponse.created, HttpResponse.accepted,
      HttpResponse.badRequest, HttpResponse.unauthorized, HttpResponse.forbidden,
      HttpResponse.notFound, HttpResponse.notAcceptable, HttpResponse.conflict,
      HttpResponse.gone, HttpResponse.unsupportedMediaType, HttpResponse.unprocessableEntity,
      HttpResponse.tooManyRequests, HttpResponse.error, HttpResponse.serverError,
      HttpResponse.notImplemented, HttpResponse.serviceUnavailable,
      send_emittedField_data, send_emittedField_errors, send_emittedField_meta,
      send_emittedKeys, jsSpread_data, jsSpread_errors, jsSpread_meta,
      ResponseOptions.empty]

/-- Claim C4: for direct `send(category, options)` calls, an absent
`statusCode` defaults to 200 (success) / 500 (error), an absent `message`
defaults to 'Success' / 'Error', and any supplied `statusCode` is used as-is
for either category — no consistency check between code and category. -/
theorem send_defaults_and_no_consistency_check (self : HttpResponse) (now : String)
    (st : ResponseStatus) (o : ResponseOptions) (c : Int) :
    (o.statusCode = none →
      emittedCode (self.send now st o) =
        some (match st with | .success => 200 | .error => 500)) ∧
    (o.message = none →
      emittedField "message" (self.send now st o) =
        some (JSVal.str (match st with | .success => "Success" | .error => "Error"))) ∧
    (o.statusCode = some (some c) → emittedCode (self.send now st o) = some c) := by
  refine ⟨fun hc => ?_, fun hm => ?_, fun hc => ?_⟩ <;>
    simp [send_emittedCode, send_emittedField_message, jsDefault, *]

theorem send_defaults_and_no_consistency_check_witness :
    emittedCode (HttpResponse.send ⟨0⟩ "T" ResponseStatus.success
      ⟨none, none, none, none, none, some (some 404)⟩) = some 404 ∧
    emittedCode (HttpResponse.send ⟨0⟩ "T" ResponseStatus.error ResponseOptions.empty) =
      some 500 ∧
    emittedField "message" (HttpResponse.send ⟨0⟩ "T" ResponseStatus.error
      ResponseOptions.empty) = some (JSVal.str "Error") := by
  have h1 := send_defaults_and_no_consistency_check ⟨0⟩ "T" ResponseStatus.success
    ⟨none, none, none, none, none, some (some 404)⟩ 404
  have h2 := send_defaults_and_no_consistency_check ⟨0⟩ "T" ResponseStatus.error
    ResponseOptions.empty 0
  exact ⟨h1.2.2 rfl, h2.1 rfl, h2.2.1 rfl⟩

/-- Claim C5: `noContent()` performs exactly one sink operation — an empty-body
write with status 204 — with no header mutation and no JSON envelope; its
operation sequence is never that of the generic `send` routine; and the
middleware-bound `noContent` helper behaves the same regardless of the
arguments it is passed. -/
theorem noContent_bypasses_formatter (self : HttpResponse) :
    HttpResponse.noContent self = [(self.res, Effect.sendEmpty 204)] ∧
    (∀ op ∈ HttpResponse.noContent self,
      (∀ k v, op.2 ≠ Effect.setHeader k v) ∧ (∀ c b, op.2 ≠ Effect.jsonWrite c b)) ∧
    (∀ now st o, HttpResponse.noContent self ≠ self.send now st o) ∧
    (∀ req res f, (responseMiddleware req res).newRes.handlers "noContent" = some f →
      ∀ o now o' now', f o now = f o' now') := by
  refine ⟨rfl, ?_, ?_, ?_⟩
  · intro op hop
    simp only [HttpResponse.noContent, List.mem_singleton] at hop
    subst hop
    exact ⟨fun k v => by simp, fun c b => by simp⟩
  · intro now st o hEq
    have hLast := congrArg List.getLast? hEq
    simp [HttpResponse.noContent, HttpResponse.send, lastOfConcat] at hLast
  · intro req res f hf o now o' now'
    simp only [responseMiddleware] at hf
    simp at hf
    rw [← hf]

theorem noContent_bypasses_formatter_witness :
    HttpResponse.noContent ⟨3⟩ = [(3, Effect.sendEmpty 204)] ∧
    HttpResponse.noContent ⟨3⟩ ≠
      HttpResponse.send ⟨3⟩ "T" ResponseStatus.success ResponseOptions.empty ∧
    (fun (_o : ResponseOptions) (_now : String) => HttpResponse.noContent (⟨3⟩ : HttpResponse))
        ⟨some (some "x"), none, none, none, none, none⟩ "A" =
      (fun (_o : ResponseOptions) (_now : String) => HttpResponse.noContent (⟨3⟩ : HttpResponse))
        ResponseOptions.empty "B" := by
  have h := noContent_bypasses_formatter ⟨3⟩
  exact ⟨h.1, h.2.2.1 "T" ResponseStatus.success ResponseOptions.empty,
    h.2.2.2 ⟨0⟩ ⟨⟨3, []⟩, fun _ => none⟩ _ rfl
      ⟨some (some "x"), none, none, none, none, none⟩ "A" ResponseOptions.empty "B"⟩

/-- Claim C6: each middleware invocation constructs exactly one Formatter bound
to the given response's sink, binds all 18 helpers under their canonical names
(each closing over that instance), then calls the continuation exactly once,
synchronously, with no arguments, after the bindings; it writes nothing to the
sink itself, leaves the sink state and all other bindings unchanged, and two
invocations for distinct sinks produce distinct instances and distinct
bindings. -/
theorem middleware_contract (req : Request) (res : ResObj) (req' : Request) (res' : ResObj) :
    (responseMiddleware req res).events =
      MwEvent.newFormatter res.sink.id ::
        (helperNames.map MwEvent.bind ++ [MwEvent.callNext []]) ∧
    (responseMiddleware req res).httpResponse = ⟨res.sink.id⟩ ∧
    (responseMiddleware req res).newRes.sink = res.sink ∧
    (∀ op, MwEvent.sinkWrite op ∉ (responseMiddleware req res).events) ∧
    (∀ n ∈ helperNames, ((responseMiddleware req res).newRes.handlers n).isSome = true) ∧
    (∀ n, n ∉ helperNames →
      (responseMiddleware req res).newRes.handlers n = res.handlers n) ∧
    ((responseMiddleware req res).newRes.handlers "success" =
        some (fun o now => ((responseMiddleware req res).httpResponse).success now o) ∧
      (responseMiddleware req res).newRes.handlers "created" =
        some (fun o now => ((responseMiddleware req res).httpResponse).created now o) ∧
      (responseMiddleware req res).newRes.handlers "accepted" =
        some (fun o now => ((responseMiddleware req res).httpResponse).accepted now o) ∧
      (responseMiddleware req res).newRes.handlers "noContent" =
        some (fun _o _now => ((responseMiddleware req res).httpResponse).noContent) ∧
      (responseMiddleware req res).newRes.handlers "badRequest" =
        some (fun o now => ((responseMiddleware req res).httpResponse).badRequest now o) ∧
      (responseMiddleware req res).newRes.handlers "unauthorized" =
        some (fun o now => ((responseMiddleware req res).httpResponse).unauthorized now o) ∧
      (responseMiddleware req res).newRes.handlers "forbidden" =
        some (fun o now => ((responseMiddleware req res).httpResponse).forbidden now o) ∧
      (responseMiddleware req res).newRes.handlers "notFound" =
        some (fun o now => ((responseMiddleware req res).httpResponse).notFound now o) ∧
      (responseMiddleware req res).newRes.handlers "notAcceptable" =
        some (fun o now => ((responseMiddleware req res).httpResponse).notAcceptable now o) ∧
      (responseMiddleware req res).newRes.handlers "conflict" =
        some (fun o now => ((responseMiddleware req res).httpResponse).conflict now o) ∧
      (responseMiddleware req res).newRes.handlers "gone" =
        some (fun o now => ((responseMiddleware req res).httpResponse).gone now o) ∧
      (responseMiddleware req res).newRes.handlers "unsupportedMediaType" =
        some (fun o now => ((responseMiddleware req res).httpResponse).unsupportedMediaType now o) ∧
      (responseMiddleware req res).newRes.handlers "unprocessableEntity" =
        some (fun o now => ((responseMiddleware req res).httpResponse).unprocessableEntity now o) ∧
      (responseMiddleware req res).newRes.handlers "tooManyRequests" =
        some (fun o now => ((responseMiddleware req res).httpResponse).tooManyRequests now o) ∧
      (responseMiddleware req res).newRes.handlers "error" =
        some (fun o now => ((responseMiddleware req res).httpResponse).error now o) ∧
      (responseMiddleware req res).newRes.handlers "serverError" =
        some (fun o now => ((responseMiddleware req res).httpResponse).serverError now o) ∧
      (responseMiddleware req res).newRes.handlers "notImplemented" =
        some (fun o now => ((responseMiddleware req res).httpResponse).notImplemented now o) ∧
      (responseMiddleware req res).newRes.handlers "serviceUnavailable" =
        some (fun o now => ((responseMiddleware req res).httpResponse).serviceUnavailable now o)) ∧
    (res.sink.id ≠ res'.sink.id →
      (responseMiddleware req res).httpResponse ≠ (responseMiddleware req' res').httpResponse ∧
      (responseMiddleware req res).newRes.handlers "success" ≠
        (responseMiddleware req' res').newRes.handlers "success") := by
  refine ⟨rfl, rfl, rfl, ?_, ?_, ?_,
    ⟨rfl, rfl, rfl, rfl, rfl, rfl, rfl, rfl, rfl, rfl, rfl, rfl, rfl, rfl, rfl, rfl, rfl, rfl⟩,
    ?_⟩
  · intro op
    simp [responseMiddleware, helperNames]
  · intro n hn
    fin_cases hn <;> simp [responseMiddleware]
  · intro n hn
    simp [helperNames] at hn
    obtain ⟨h1, h2, h3, h4, h5, h6, h7, h8, h9, h10, h11, h12, h13, h14, h15, h16, h17, h18⟩ := hn
    simp [responseMiddleware, h1, h2, h3, h4, h5, h6, h7, h8, h9, h10, h11, h12, h13, h14,
      h15, h16, h17, h18]
  · intro hne
    constructor
    · intro hEq
      exact hne (congrArg HttpResponse.res hEq)
    · intro hEq
      have h2 := congrArg (fun x => Option.map (fun g => g ResponseOptions.empty "T") x) hEq
      simp [responseMiddleware, HttpResponse.success, HttpResponse.send, jsSpread,
        ResponseOptions.empty, jsDefault, jsDefined] at h2
      exact hne h2

theorem middleware_contract_witness :
    ((responseMiddleware ⟨0⟩ ⟨⟨0, []⟩, fun _ => none⟩).newRes.handlers "notFound").isSome
        = true ∧
    (responseMiddleware ⟨0⟩ ⟨⟨0, []⟩, fun _ => none⟩).newRes.handlers "bogus" = none ∧
    (responseMiddleware ⟨0⟩ ⟨⟨0, []⟩, fun _ => none⟩).httpResponse ≠
      (responseMiddleware ⟨0⟩ ⟨⟨1, []⟩, fun _ => none⟩).httpResponse := by
  have h := middleware_contract ⟨0⟩ ⟨⟨0, []⟩, fun _ => none⟩ ⟨0⟩ ⟨⟨1, []⟩, fun _ => none⟩
  refine ⟨h.2.2.2.2.1 "notFound" (by simp [helperNames]), ?_,
    (h.2.2.2.2.2.2.2 (by simp)).1⟩
  have h6 := h.2.2.2.2.2.1 "bogus" (by simp [helperNames])
  simpa using h6

/-- Claim C7: when `send` is given a headers mapping, every key/value pair is
applied to the sink as a `setHeader` operation, and all of these precede the
single terminating status-plus-JSON-body write in the sink's effect
sequence. -/
theorem headers_applied_before_body (self : HttpResponse) (now : String)
    (st : ResponseStatus) (o : ResponseOptions) (hs : List (String × String))
    (hh : o.headers = some (some hs)) :
    ∃ c b, self.send now st o =
      hs.map (fun kv => (self.res, Effect.setHeader kv.1 kv.2))
        ++ [(self.res, Effect.jsonWrite c b)] := by
  refine ⟨jsDefault o.statusCode (match st with | .success => (200 : Int) | .error => 500),
    [("status", JSVal.str st.asString),
     ("message", JSVal.str (jsDefault o.message
       (match st with | .success => "Success" | .error => "Error")))]
      ++ (match jsDefined o.data with | some v => [("data", v)] | none => [])
      ++ (match jsDefined o.errors with | some v => [("errors", v)] | none => [])
      ++ (match jsDefined o.meta with | some v => [("meta", v)] | none => [])
      ++ [("timestamp", JSVal.str now)], ?_⟩
  simp [HttpResponse.send, jsDefined, hh]

theorem headers_applied_before_body_witness :
    ∃ c b, HttpResponse.send ⟨7⟩ "T" ResponseStatus.success
        ⟨none, none, none, none, some (some [("X-A", "1"), ("X-B", "2")]), none⟩ =
      [(7, Effect.setHeader "X-A" "1"), (7, Effect.setHeader "X-B" "2"),
       (7, Effect.jsonWrite c b)] := by
  obtain ⟨c, b, hcb⟩ := headers_applied_before_body ⟨7⟩ "T" ResponseStatus.success
    ⟨none, none, none, none, some (some [("X-A", "1"), ("X-B", "2")]), none⟩
    [("X-A", "1"), ("X-B", "2")] rfl
  exact ⟨c, b, hcb⟩

/-- Claim C8 counterexample: `badRequest` called with a supplied `data` value
produces an envelope that does contain a `data` field — `ErrorResponseOptions`
inherits `data?: any` from `ResponseOptions` via interface extension, and the
error helpers forward the whole options bag to `send`, which includes any
defined `data`. -/
theorem error_helper_data_counterexample :
    emittedField "data" (HttpResponse.badRequest ⟨0⟩ "T"
      ⟨none, some (some (JSVal.num 5)), none, none, none, none⟩) =
      some (JSVal.num 5) := by
  rfl

/-- Claim C8 (amended): an error-category helper forwards `data` unchanged to
`send`: the envelope contains a `data` field exactly when the caller supplied a
defined `data` value, with exactly that value — the options type does not
exclude `data`, it is merely not re-declared. -/
theorem error_helper_forwards_data (h : Helper)
    (hcat : h.docCategory = ResponseStatus.error) (self : HttpResponse) (now : String)
    (o : ResponseOptions) :
    emittedField "data" (h.call self now o) = jsDefined o.data := by
  cases h <;>
    simp [Helper.call, HttpResponse.success, HttpResponse.created, HttpResponse.accepted,
      HttpResponse.badRequest, HttpResponse.unauthorized, HttpResponse.forbidden,
      HttpResponse.notFound, HttpResponse.notAcceptable, HttpResponse.conflict,
      HttpResponse.gone, HttpResponse.unsupportedMediaType, HttpResponse.unprocessableEntity,
      HttpResponse.tooManyRequests, HttpResponse.error, HttpResponse.serverError,
      HttpResponse.notImplemented, HttpResponse.serviceUnavailable,
      send_emittedField_data, jsSpread_data, ResponseOptions.empty]

theorem error_helper_forwards_data_witness :
    emittedField "data" (Helper.call Helper.unprocessableEntity ⟨0⟩ "T"
      ⟨none, some (some (JSVal.bool false)), none, none, none, none⟩) =
      some (JSVal.bool false) := by
  exact error_helper_forwards_data Helper.unprocessableEntity rfl ⟨0⟩ "T"
    ⟨none, some (some (JSVal.bool false)), none, none, none, none⟩

/-- Claim C9: calling a helper with `message` (resp. `statusCode`) explicitly
present-but-undefined overrides the helper's preset via the options spread and
then falls back to the generic category default in `send` — e.g. `notFound`
with undefined message emits 'Error', and with undefined statusCode writes
500. -/
theorem explicit_undefined_overrides_preset (h : Helper) (self : HttpResponse)
    (now : String) (o : ResponseOptions) :
    (o.message = some none →
      emittedField "message" (h.call self now o) =
        some (JSVal.str (match h.docCategory with
          | .success => "Success" | .error => "Error"))) ∧
    (o.statusCode = some none →
      emittedCode (h.call self now o) =
        some (match h.docCategory with | .success => 200 | .error => 500)) := by
  refine ⟨fun hm => ?_, fun hc => ?_⟩ <;> cases h <;>
    simp [Helper.call, HttpResponse.success, HttpResponse.created, HttpResponse.accepted,
      HttpResponse.badRequest, HttpResponse.unauthorized, HttpResponse.forbidden,
      HttpResponse.notFound, HttpResponse.notAcceptable, HttpResponse.conflict,
      HttpResponse.gone, HttpResponse.unsupportedMediaType, HttpResponse.unprocessableEntity,
      HttpResponse.tooManyRequests, HttpResponse.error, HttpResponse.serverError,
      HttpResponse.notImplemented, HttpResponse.serviceUnavailable,
      send_emittedField_message, send_emittedCode, jsSpread, jsDefault,
      Helper.docCategory, *]

theorem explicit_undefined_overrides_preset_witness :
    emittedField "message" (Helper.call Helper.notFound ⟨0⟩ "T"
      ⟨some none, none, none, none, none, none⟩) = some (JSVal.str "Error") ∧
    emittedCode (Helper.call Helper.notFound ⟨0⟩ "T"
      ⟨none, none, none, none, none, some none⟩) = some 500 := by
  have h1 := explicit_undefined_overrides_preset Helper.notFound ⟨0⟩ "T"
    ⟨some none, none, none, none, none, none⟩
  have h2 := explicit_undefined_overrides_preset Helper.notFound ⟨0⟩ "T"
    ⟨none, none, none, none, none, some none⟩
  exact ⟨h1.1 rfl, h2.2 rfl⟩

/-- Claim C10: with the send-time clock instant an explicit parameter, `send`
is deterministic — two calls on the same formatter with the same category,
the same clock instant, and field-wise equal options bags produce identical
sink effect sequences (same headers in the same order, same status code, same
envelope body). -/
theorem send_deterministic (self : HttpResponse) (now : String) (st : ResponseStatus)
    (o o' : ResponseOptions)
    (hm : o.message = o'.message) (hd : o.data = o'.data) (hmeta : o.meta = o'.meta)
    (he : o.errors = o'.errors) (hh : o.headers = o'.headers)
    (hc : o.statusCode = o'.statusCode) :
    self.send now st o = self.send now st o' := by
  have hoo : o = o' := by
    cases o
    cases o'
    simp_all
  rw [hoo]

theorem send_deterministic_witness :
    HttpResponse.send ⟨0⟩ "T" ResponseStatus.success ResponseOptions.empty =
      HttpResponse.send ⟨0⟩ "T" ResponseStatus.success
        ⟨none, none, none, none, none, none⟩ :=
  send_deterministic ⟨0⟩ "T" ResponseStatus.success ResponseOptions.empty
    ⟨none, none, none, none, none, none⟩ rfl rfl rfl rfl rfl rfl
